import Mathlib

/-!
# Verification of the Snowball Blitz core (docs/js/main.js)

Shallow embedding of the core game state and operations of
`docs/js/main.js` (collision routing, target destruction, projectile
lifecycle, session state machine, trajectory predictor).  Numbers are
modelled by `ℚ` (the JS source only performs field arithmetic, `min`,
`max` and comparisons on them; `Math.sqrt`, used solely by the
trajectory predictor for `vt.length()`, is abstracted as an explicit
function parameter `sqrt`).  JS `Map`s and `Set`s keyed by physics body
id are modelled as duplicate-free `List ℕ` of keys, the record store
being the corresponding array (`projectiles` / `targets` list); cannon's
global body-id allocator is modelled by the `nextBodyId` counter.
-/

/-- 3D vector over ℚ (models THREE.Vector3 / CANNON.Vec3). -/
structure Vec3 where
  x : ℚ
  y : ℚ
  z : ℚ
deriving DecidableEq, Repr

instance : Add Vec3 := ⟨fun a b => ⟨a.x + b.x, a.y + b.y, a.z + b.z⟩⟩

/-- `v.multiplyScalar c` -/
def Vec3.scale (c : ℚ) (v : Vec3) : Vec3 := ⟨c * v.x, c * v.y, c * v.z⟩

/-- Squared euclidean norm; `v.length()` is `sqrt (normSq v)`. -/
def Vec3.normSq (v : Vec3) : ℚ := v.x * v.x + v.y * v.y + v.z * v.z

/-- `clampNumber(n, {min, max})` from main.js: `Math.max(min, Math.min(max, n))`. -/
def clampNumber (n lo hi : ℚ) : ℚ := max lo (min hi n)

/-- `SCORE_PER_TARGET` -/
def SCORE_PER_TARGET : ℕ := 50

/-- `TIME_LIMIT_SEC` -/
def TIME_LIMIT_SEC : ℚ := 60

/-- `projectileMaxAgeSec` -/
def projectileMaxAgeSec : ℚ := 8

/-- `projectileRadius` (0.15) -/
def projectileRadius : ℚ := 3 / 20

/-- `gameState` values: `'playing' | 'ended'`. -/
inductive GState where
  | playing
  | ended
deriving DecidableEq, Repr

/-- End reason passed to `endGame` / `ui.showEnd`. -/
inductive EndReason where
  | timeout
  | win
deriving DecidableEq, Repr

/-- A target record `{ mesh, body, alive }`; `id` is `body.id`,
`meshPos` is `mesh.position`, `bodyPos` is `body.position`. -/
structure Target where
  id : ℕ
  meshPos : Vec3
  bodyPos : Vec3
  alive : Bool
deriving DecidableEq, Repr

/-- A projectile record `{ mesh, body, age }`; `id` is `body.id`. -/
structure Projectile where
  id : ℕ
  meshPos : Vec3
  bodyPos : Vec3
  age : ℚ
deriving DecidableEq, Repr

/-- The module-level mutable state of main.js that the core subsystems
read and write.  UI collaborator state (score HUD, end overlay, floating
texts) is included as observable outputs: `score` mirrors the ui closure
score, `endEvents` records each `ui.showEnd({reason, finalScore})` call
(most recent first), `floatingTextCount` counts `ui.spawnFloatingText`
calls, `uiTimerSeconds` the last value passed to `ui.updateTimer`. -/
structure GameState where
  projectiles : List Projectile
  projectileByBodyId : List ℕ
  targets : List Target
  targetByBodyId : List ℕ
  worldBodyIds : List ℕ
  projectilesToRemove : List ℕ
  gameState : GState
  timeRemainingSec : ℚ
  score : ℕ
  endEvents : List (EndReason × ℕ)
  floatingTextCount : ℕ
  uiTimerSeconds : ℚ
  fireDisabled : Bool
  overlayVisible : Bool
  nextBodyId : ℕ
  playerPos : Vec3
  aimDir : Vec3
  projectileSpeed : ℚ
  gravity : Vec3
  trajMaxTimeSec : ℚ
  trajSegmentLength : ℚ
  trajMaxPoints : ℕ
  targetMinDistance : ℚ
  targetMaxDistance : ℚ
  snowmanHeight : ℚ
  trajectoryPoints : List Vec3
deriving DecidableEq, Repr

/-- `targetByBodyId.get(id)`: resolve a body id to its target record
(the map holds the same record objects as the `targets` array). -/
def lookupTarget (s : GameState) (id : ℕ) : Option Target :=
  if id ∈ s.targetByBodyId then s.targets.find? (fun t => t.id = id) else none

/-- `projectileByBodyId.get(id)`. -/
def lookupProjectile (s : GameState) (id : ℕ) : Option Projectile :=
  if id ∈ s.projectileByBodyId then s.projectiles.find? (fun p => p.id = id) else none

/-- `targets.reduce((n, t) => n + (t.alive ? 1 : 0), 0)`. -/
def aliveCount (ts : List Target) : ℕ := ts.countP (fun t => t.alive)

/-- `endGame(reason)` from main.js lines 519-527. -/
def endGame (s : GameState) (reason : EndReason) : GameState :=
  if s.gameState = GState.ended then s
  else
    { s with
      gameState := GState.ended
      timeRemainingSec := 0
      uiTimerSeconds := 0
      fireDisabled := true
      endEvents := (reason, s.score) :: s.endEvents
      overlayVisible := true }

/-- `destroyTarget(target)` from main.js lines 690-711, the target record
being the one whose `body.id` is `tid`.  Note: the flag is set, the
floating text and snow burst are spawned and the score is credited
unconditionally — there is no `alive` guard inside this function. -/
def destroyTarget (s : GameState) (tid : ℕ) : GameState :=
  let s1 :=
    { s with
      targets := s.targets.map (fun t => if t.id = tid then { t with alive := false } else t)
      floatingTextCount := s.floatingTextCount + 1
      score := s.score + SCORE_PER_TARGET
      targetByBodyId := s.targetByBodyId.filter (fun i => i ≠ tid) }
  if s1.gameState = GState.playing ∧ aliveCount s1.targets = 0 then
    endGame s1 EndReason.win
  else s1

/-- `handleProjectileContact(projectile, otherBody)` from main.js lines
674-688; `pid` is `projectile.body.id`, `otherId` is `otherBody.id`. -/
def handleProjectileContact (s : GameState) (pid otherId : ℕ) : GameState :=
  if (match lookupTarget s otherId with
      | some t => t.alive
      | none => false) then
    destroyTarget s otherId
  else if otherId ∈ s.worldBodyIds then
    { s with projectilesToRemove := s.projectilesToRemove.insert pid }
  else s

/-- `getProjectileSpawnPosition(dir)`:
`player.position + (0,1,0) + dir * 1.0`. -/
def getProjectileSpawnPosition (playerPos dir : Vec3) : Vec3 :=
  playerPos + Vec3.mk 0 1 0 + Vec3.scale 1 dir

/-- `fireProjectile()` from main.js lines 1370-1429 (rejected as a no-op
unless the state is `'playing'`; the scene/world/camera/player refs are
always present in this model). -/
def fireProjectile (s : GameState) : GameState :=
  if s.gameState ≠ GState.playing then s
  else
    let dir := s.aimDir
    let spawnPos := getProjectileSpawnPosition s.playerPos dir
    let id := s.nextBodyId
    let rec1 : Projectile := { id := id, meshPos := spawnPos, bodyPos := spawnPos, age := 0 }
    { s with
      projectiles := s.projectiles ++ [rec1]
      projectileByBodyId := s.projectileByBodyId.insert id
      nextBodyId := id + 1 }

/-- Per-projectile part of `updateProjectiles(dt)`: `p.age += dt` and the
mesh transform is synced from the physics body. -/
def ageAndSync (dt : ℚ) (p : Projectile) : Projectile :=
  { p with age := p.age + dt, meshPos := p.bodyPos }

/-- The three removal rules of `updateProjectiles`, in source order. -/
inductive RemovalRule where
  | lifetime
  | contact
  | fallback
deriving DecidableEq, Repr

/-- The if/continue chain of `updateProjectiles` (main.js lines
1455-1470): first matching rule wins, `none` when the projectile is
kept. -/
def removalRule (remSet : List ℕ) (p : Projectile) : Option RemovalRule :=
  if p.age > projectileMaxAgeSec then some RemovalRule.lifetime
  else if p.id ∈ remSet then some RemovalRule.contact
  else if p.bodyPos.y < -10 then some RemovalRule.fallback
  else none

/-- The backwards `for` loop of `updateProjectiles(dt)` (main.js lines
1441-1472).  The JS loop walks the array from its last index to index 0,
so the recursion processes the tail (higher indices) before the head;
`removeProjectile` deletes the record, its id-lookup entry and its
pending-removal entry.  Returns the surviving records together with the
updated `projectileByBodyId` key set and `projectilesToRemove` set. -/
def updateProjectilesGo (dt : ℚ) :
    List Projectile → List ℕ → List ℕ → List Projectile × List ℕ × List ℕ
  | [], m, r => ([], m, r)
  | p :: rest, m, r =>
    let res := updateProjectilesGo dt rest m r
    let kept := res.1
    let m1 := res.2.1
    let r1 := res.2.2
    let p1 := ageAndSync dt p
    if (removalRule r1 p1).isSome then
      (kept, m1.filter (fun i => i ≠ p1.id), r1.filter (fun i => i ≠ p1.id))
    else (p1 :: kept, m1, r1)

/-- `updateProjectiles(dt)`. -/
def updateProjectiles (s : GameState) (dt : ℚ) : GameState :=
  let res := updateProjectilesGo dt s.projectiles s.projectileByBodyId s.projectilesToRemove
  { s with
    projectiles := res.1
    projectileByBodyId := res.2.1
    projectilesToRemove := res.2.2 }

/-- The timer / game-loop block of `animate()` (main.js lines 1559-1574):
while playing, first the defensive win check, then the timer decrement
and the timeout check. -/
def sessionTick (s : GameState) (dt : ℚ) : GameState :=
  if s.gameState = GState.playing then
    let s1 := if aliveCount s.targets = 0 then endGame s EndReason.win else s
    let s2 := { s1 with timeRemainingSec := s1.timeRemainingSec - dt }
    if s2.timeRemainingSec ≤ 0 then endGame s2 EndReason.timeout
    else { s2 with uiTimerSeconds := s2.timeRemainingSec }
  else s

/-- The most recently reported end-of-session reason
(`ui.showEnd` event log, newest first). -/
def endedReason (s : GameState) : Option EndReason :=
  s.endEvents.head?.map Prod.fst

/-- `getTargetStepDistances()`. -/
def getTargetStepDistances (s : GameState) : ℚ × ℚ × ℚ :=
  let minD := max (1 / 10) (min s.targetMinDistance s.targetMaxDistance)
  let maxD := max minD s.targetMaxDistance
  (minD, minD + (1 / 2) * (maxD - minD), maxD)

/-- The nine placement descriptors of `createTargets()` (shooter at the
origin, steps toward −Z). -/
def targetPlacements (s : GameState) : List Vec3 :=
  let d := getTargetStepDistances s
  let d1 := d.1
  let d2 := d.2.1
  let d3 := d.2.2
  [ Vec3.mk (-3) 1 (-d1), Vec3.mk 0 1 (-d1), Vec3.mk 3 1 (-d1),
    Vec3.mk (-5/2) 2 (-d2), Vec3.mk 0 2 (-d2), Vec3.mk (5/2) 2 (-d2),
    Vec3.mk (-2) 3 (-d3), Vec3.mk 0 3 (-d3), Vec3.mk 2 3 (-d3) ]

/-- `colliderR` from `getSnowmanDims(h)` with the clamp applied to the
configured snowman height as in `createTargets`. -/
def snowmanColliderR (s : GameState) : ℚ :=
  let h := clampNumber s.snowmanHeight (1/5) 50
  (11/20) * (h / (119/100))

/-- `createTargets()` from main.js lines 870-915: one alive target per
placement, each with a fresh physics body id, pushed to the `targets`
array and registered in `targetByBodyId`. -/
def createTargets (s : GameState) : GameState :=
  let ps := targetPlacements s
  let r := snowmanColliderR s
  let newTs := (List.range ps.length).zip ps |>.map
    (fun kp =>
      { id := s.nextBodyId + kp.1
        meshPos := kp.2
        bodyPos := Vec3.mk kp.2.x (kp.2.y + r) kp.2.z
        alive := true : Target })
  { s with
    targets := s.targets ++ newTs
    targetByBodyId := newTs.foldl (fun m t => m.insert t.id) s.targetByBodyId
    nextBodyId := s.nextBodyId + ps.length }

/-- Net effect of the `for (let i = projectiles.length - 1; ...)
removeProjectile(i)` loop at the top of `resetGame()`: every record is
spliced out and its id removed from the lookup map and the pending-
removal set. -/
def removeAllProjectiles (s : GameState) : GameState :=
  let ids := s.projectiles.map (fun p => p.id)
  { s with
    projectiles := []
    projectileByBodyId := s.projectileByBodyId.filter (fun i => i ∉ ids)
    projectilesToRemove := s.projectilesToRemove.filter (fun i => i ∉ ids) }

/-- `resetGame()` from main.js lines 529-555. -/
def resetGame (s : GameState) : GameState :=
  let s1 := removeAllProjectiles s
  let s2 := { s1 with targets := [], targetByBodyId := [] }
  let s3 := createTargets s2
  { s3 with
    score := 0
    gameState := GState.playing
    timeRemainingSec := TIME_LIMIT_SEC
    uiTimerSeconds := TIME_LIMIT_SEC
    fireDisabled := false
    overlayVisible := false }

/-- `world.step` moving the dynamic bodies: the physics collaborator may
update every projectile body position (modelled as an arbitrary function
of the body id). -/
def moveBodies (s : GameState) (f : ℕ → Vec3) : GameState :=
  { s with projectiles := s.projectiles.map (fun p => { p with bodyPos := f p.id }) }

/-- `vt.length()`, with `Math.sqrt` abstracted as the parameter `sqrt`
applied to the exact squared norm. -/
def vlen (sqrt : ℚ → ℚ) (v : Vec3) : ℚ := sqrt (Vec3.normSq v)

/-- The ballistic closed form `P(t) = P0 + V0·t + ½·g·t²` used for each
sampled point of `updateTrajectoryLine`. -/
def posAt (p0 v0 g : Vec3) (t : ℚ) : Vec3 :=
  p0 + Vec3.scale t v0 + Vec3.scale ((1/2) * (t * t)) g

/-- Trajectory configuration (`trajectory.{maxTimeSec,segmentLength,maxPoints}`). -/
structure TrajectoryConfig where
  maxTimeSec : ℚ
  segmentLength : ℚ
  maxPoints : ℕ
deriving DecidableEq, Repr

/-- The adaptive time increment of `updateTrajectoryLine`:
`clampNumber(desiredSeg / speedNow, {min:0.01, max:0.12})` with
`speedNow = Math.max(0.001, vt.length())` at elapsed time `t`. -/
def trajStep (sqrt : ℚ → ℚ) (v0 g : Vec3) (seg t : ℚ) : ℚ :=
  let vt := v0 + Vec3.scale t g
  let speedNow := max (1/1000) (vlen sqrt vt)
  clampNumber (seg / speedNow) (1/100) (12/100)

/-- The sampling loop of `updateTrajectoryLine` (main.js lines
1316-1330): `fuel` is the number of loop iterations still allowed
(`maxPts - i`), `t` the elapsed time.  Each iteration advances `t`
adaptively, samples the closed form, and breaks once the sampled height
reaches the ground threshold. -/
def trajGo (sqrt : ℚ → ℚ) (p0 v0 g : Vec3) (seg maxT groundY : ℚ) :
    ℕ → ℚ → List Vec3
  | 0, _ => []
  | fuel + 1, t =>
    if t < maxT then
      let t1 := t + trajStep sqrt v0 g seg t
      let pt := posAt p0 v0 g t1
      if pt.y ≤ groundY then [pt]
      else pt :: trajGo sqrt p0 v0 g seg maxT groundY fuel t1
    else []

/-- The point-list computation of `updateTrajectoryLine()` (main.js lines
1297-1330): starts with the spawn position `p0`, then samples the arc
adaptively; `groundY` is the break threshold (`projectileRadius * 0.5`
at the call site). -/
def updateTrajectoryPoints (sqrt : ℚ → ℚ) (p0 v0 g : Vec3)
    (cfg : TrajectoryConfig) (groundY : ℚ) : List Vec3 :=
  let maxT := max (1/20) cfg.maxTimeSec
  let seg := max (1/20) cfg.segmentLength
  let maxPts := max 4 cfg.maxPoints
  p0 :: trajGo sqrt p0 v0 g seg maxT groundY (maxPts - 1) 0

/-- The sequence of sample times described by the specification
(§ 4.3): starting from `t = 0`, each next sample time adds
`clamp(segmentLength / max(speed_now, ε), minDt, maxDt)` with
`speed_now = |V0 + g·t|`; sampling stops when the predicted height
drops to or below the ground threshold, when `maxPoints` samples have
been produced (`fuel` counts the remaining allowance) or once the
elapsed time reaches the maximum.  Spec-side description used to state
the refinement for the predictor claim. -/
def trajTimesSpec (sqrt : ℚ → ℚ) (p0 v0 g : Vec3) (seg maxT groundY : ℚ) :
    ℕ → ℚ → List ℚ
  | 0, _ => []
  | fuel + 1, t =>
    if t < maxT then
      let t1 := t + clampNumber (seg / max (vlen sqrt (v0 + Vec3.scale t g)) (1/1000)) (1/100) (12/100)
      if (posAt p0 v0 g t1).y ≤ groundY then [t1]
      else t1 :: trajTimesSpec sqrt p0 v0 g seg maxT groundY fuel t1
    else []

/-- Every element except the last satisfies `P`. -/
def allButLast (P : Vec3 → Prop) : List Vec3 → Prop
  | [] => True
  | [_] => True
  | q :: rest => P q ∧ allButLast P rest

/-- The pure trajectory computation as performed from the live game
state by `updateTrajectoryLine()`: reads the aim direction, the spawn
position, the configured speed, gravity and trajectory config, and
nothing else. -/
def computeTrajectory (sqrt : ℚ → ℚ) (s : GameState) : List Vec3 :=
  let dir := s.aimDir
  let p0 := getProjectileSpawnPosition s.playerPos dir
  let v0 := Vec3.scale s.projectileSpeed dir
  updateTrajectoryPoints sqrt p0 v0 s.gravity
    ⟨s.trajMaxTimeSec, s.trajSegmentLength, s.trajMaxPoints⟩
    (projectileRadius * (1/2))

/-- `updateTrajectoryLine()` as a state transformer: recomputes the
preview points and writes them to the render line; no other state is
touched. -/
def updateTrajectoryLine (sqrt : ℚ → ℚ) (s : GameState) : GameState :=
  { s with trajectoryPoints := computeTrajectory sqrt s }

/-- The state right after `init()` (before the first frame): ground body
(id 0) and the three platform bodies (ids 1, 2, 3) registered in
`worldBodyIds`, nine targets created, timer full, state `'playing'`,
default configuration.  The initial aim direction involves `sin`/`cos`
of the default pitch, so it is abstracted as the parameter `aim`. -/
def initialState (aim : Vec3) : GameState :=
  createTargets
    { projectiles := []
      projectileByBodyId := []
      targets := []
      targetByBodyId := []
      worldBodyIds := [0, 1, 2, 3]
      projectilesToRemove := []
      gameState := GState.playing
      timeRemainingSec := TIME_LIMIT_SEC
      score := 0
      endEvents := []
      floatingTextCount := 0
      uiTimerSeconds := TIME_LIMIT_SEC
      fireDisabled := false
      overlayVisible := false
      nextBodyId := 4
      playerPos := Vec3.mk 0 1 0
      aimDir := aim
      projectileSpeed := 18
      gravity := Vec3.mk 0 (-49/5) 0
      trajMaxTimeSec := 3
      trajSegmentLength := 7/20
      trajMaxPoints := 80
      targetMinDistance := 10
      targetMaxDistance := 26
      snowmanHeight := 6/5
      trajectoryPoints := [] }

/-- One system step: the operations of the frame loop and of the input
collaborator (spawn, contact routing, lifecycle update, session tick,
reset, aim change, physics body motion).  `dt` for the tick is the
frame delta after the 50 ms clamp of `animate()`. -/
inductive Step : GameState → GameState → Prop
  | fire (s : GameState) : Step s (fireProjectile s)
  | contact (s : GameState) (pid otherId : ℕ) :
      Step s (handleProjectileContact s pid otherId)
  | update (s : GameState) (dt : ℚ) (h : 0 ≤ dt) : Step s (updateProjectiles s dt)
  | tick (s : GameState) (dt : ℚ) (h0 : 0 ≤ dt) (h1 : dt ≤ 1/20) :
      Step s (sessionTick s dt)
  | reset (s : GameState) : Step s (resetGame s)
  | aim (s : GameState) (d : Vec3) : Step s { s with aimDir := d }
  | physics (s : GameState) (f : ℕ → Vec3) : Step s (moveBodies s f)
  | trajectory (s : GameState) (sqrt : ℚ → ℚ) : Step s (updateTrajectoryLine sqrt s)

/-- States reachable from some initial state by frame-loop steps. -/
inductive Reachable : GameState → Prop
  | init (aim : Vec3) : Reachable (initialState aim)
  | step {s s' : GameState} : Reachable s → Step s s' → Reachable s'

/-- The inductive frame invariant: (a) handle consistency — every
id-lookup key has a record and every record's id is a key; (b) the
active records carry pairwise distinct ids; (c) ids are below the body
allocator's next id; (d) the timer is non-negative, as is the displayed
timer value; (e) while playing there is at least one alive target (the
win path ends the game in the same call that destroys the last
target). -/
def FrameInv (s : GameState) : Prop :=
  (∀ i ∈ s.projectileByBodyId, ∃ p ∈ s.projectiles, p.id = i) ∧
  (∀ p ∈ s.projectiles, p.id ∈ s.projectileByBodyId) ∧
  (s.projectiles.map (fun p => p.id)).Nodup ∧
  (∀ p ∈ s.projectiles, p.id < s.nextBodyId) ∧
  0 ≤ s.timeRemainingSec ∧
  0 ≤ s.uiTimerSeconds ∧
  (s.gameState = GState.playing → 0 < aliveCount s.targets)

instance (s : GameState) : Decidable (FrameInv s) := by
  unfold FrameInv
  infer_instance

/-- Has some projectile of `l`, once aged by `dt`, id `i` and a matching
removal rule under the pending-removal set `r`?  (The set of ids deleted
from the lookup structures by one `updateProjectiles` pass.) -/
def removedIdB (dt : ℚ) (r : List ℕ) (l : List Projectile) (i : ℕ) : Bool :=
  l.any (fun p => p.id == i && (removalRule r (ageAndSync dt p)).isSome)

/-- The timer facts claimed for one session tick taken from `s` with
frame delta `dt`: the remaining time stays non-negative and does not
increase, the displayed timer value stays non-negative, and if the
decrement drives the time to `≤ 0` the session ends in this very tick
with reason `timeout` and the time clamped to exactly `0`. -/
def TickTimeOK (s : GameState) (dt : ℚ) : Prop :=
  0 ≤ (sessionTick s dt).timeRemainingSec ∧
  (sessionTick s dt).timeRemainingSec ≤ s.timeRemainingSec ∧
  0 ≤ (sessionTick s dt).uiTimerSeconds ∧
  (s.timeRemainingSec - dt ≤ 0 →
    (sessionTick s dt).gameState = GState.ended ∧
    endedReason (sessionTick s dt) = some EndReason.timeout ∧
    (sessionTick s dt).timeRemainingSec = 0)

/-- A small mid-game state used to instantiate theorems with
hypotheses: one in-flight projectile (body id 7), one alive target
(body id 100), almost no time left. -/
def witState : GameState :=
  { projectiles := [{ id := 7, meshPos := Vec3.mk 0 2 (-5), bodyPos := Vec3.mk 0 2 (-5), age := 1 }]
    projectileByBodyId := [7]
    targets := [{ id := 100, meshPos := Vec3.mk 0 1 (-10), bodyPos := Vec3.mk 0 2 (-10), alive := true }]
    targetByBodyId := [100]
    worldBodyIds := [0]
    projectilesToRemove := []
    gameState := GState.playing
    timeRemainingSec := 0
    score := 0
    endEvents := []
    floatingTextCount := 0
    uiTimerSeconds := 0
    fireDisabled := false
    overlayVisible := false
    nextBodyId := 101
    playerPos := Vec3.mk 0 1 0
    aimDir := Vec3.mk 0 0 (-1)
    projectileSpeed := 18
    gravity := Vec3.mk 0 (-10) 0
    trajMaxTimeSec := 3
    trajSegmentLength := 1
    trajMaxPoints := 80
    targetMinDistance := 10
    targetMaxDistance := 26
    snowmanHeight := 1
    trajectoryPoints := [] }

/-- A state holding an already-destroyed target record (body id 5, still
in the `targets` array exactly as main.js leaves it after a destroy,
with its id gone from the lookup map) next to one alive target (id 6). -/
def deadTargetState : GameState :=
  { witState with
    targets :=
      [{ id := 5, meshPos := Vec3.mk (-3) 1 (-10), bodyPos := Vec3.mk (-3) 2 (-10), alive := false },
       { id := 6, meshPos := Vec3.mk 3 1 (-10), bodyPos := Vec3.mk 3 2 (-10), alive := true }]
    targetByBodyId := [6] }

/-- A state whose session has already ended (by timeout). -/
def endedState : GameState :=
  { witState with
    gameState := GState.ended
    timeRemainingSec := 0
    uiTimerSeconds := 0
    fireDisabled := true
    overlayVisible := true
    endEvents := [(EndReason.timeout, 0)] }

lemma endGame_projectiles (s : GameState) (r : EndReason) :
    (endGame s r).projectiles = s.projectiles := by
  unfold endGame; split <;> rfl

lemma endGame_projectileByBodyId (s : GameState) (r : EndReason) :
    (endGame s r).projectileByBodyId = s.projectileByBodyId := by
  unfold endGame; split <;> rfl

lemma endGame_projectilesToRemove (s : GameState) (r : EndReason) :
    (endGame s r).projectilesToRemove = s.projectilesToRemove := by
  unfold endGame; split <;> rfl

lemma endGame_targets (s : GameState) (r : EndReason) :
    (endGame s r).targets = s.targets := by
  unfold endGame; split <;> rfl

lemma endGame_nextBodyId (s : GameState) (r : EndReason) :
    (endGame s r).nextBodyId = s.nextBodyId := by
  unfold endGame; split <;> rfl

lemma endGame_gameState (s : GameState) (r : EndReason) :
    (endGame s r).gameState = GState.ended := by
  unfold endGame; split
  · assumption
  · rfl

lemma destroyTarget_projectilesToRemove (s : GameState) (tid : ℕ) :
    (destroyTarget s tid).projectilesToRemove = s.projectilesToRemove := by
  unfold destroyTarget; dsimp only; split
  · rw [endGame_projectilesToRemove]
  · rfl

lemma destroyTarget_projectiles (s : GameState) (tid : ℕ) :
    (destroyTarget s tid).projectiles = s.projectiles := by
  unfold destroyTarget; dsimp only; split
  · rw [endGame_projectiles]
  · rfl

lemma destroyTarget_projectileByBodyId (s : GameState) (tid : ℕ) :
    (destroyTarget s tid).projectileByBodyId = s.projectileByBodyId := by
  unfold destroyTarget; dsimp only; split
  · rw [endGame_projectileByBodyId]
  · rfl

lemma destroyTarget_nextBodyId (s : GameState) (tid : ℕ) :
    (destroyTarget s tid).nextBodyId = s.nextBodyId := by
  unfold destroyTarget; dsimp only; split
  · rw [endGame_nextBodyId]
  · rfl

lemma destroyTarget_targets (s : GameState) (tid : ℕ) :
    (destroyTarget s tid).targets =
      s.targets.map (fun t => if t.id = tid then { t with alive := false } else t) := by
  unfold destroyTarget; dsimp only; split
  · rw [endGame_targets]
  · rfl

lemma destroyTarget_targetByBodyId (s : GameState) (tid : ℕ) :
    (destroyTarget s tid).targetByBodyId = s.targetByBodyId.filter (fun i => i ≠ tid) := by
  unfold destroyTarget; dsimp only; split
  · rw [show ∀ s' r, (endGame s' r).targetByBodyId = s'.targetByBodyId from by
      intro s' r; unfold endGame; split <;> rfl]
  · rfl

lemma handleContact_alive (s : GameState) (pid otherId : ℕ) (t : Target)
    (hl : lookupTarget s otherId = some t) (ha : t.alive = true) :
    handleProjectileContact s pid otherId = destroyTarget s otherId := by
  unfold handleProjectileContact
  rw [hl]
  dsimp only
  rw [ha]
  rfl

lemma handleContact_notAlive (s : GameState) (pid otherId : ℕ)
    (h : ∀ t, lookupTarget s otherId = some t → t.alive = false) :
    handleProjectileContact s pid otherId =
      if otherId ∈ s.worldBodyIds then
        { s with projectilesToRemove := s.projectilesToRemove.insert pid }
      else s := by
  unfold handleProjectileContact
  rcases hl : lookupTarget s otherId with _ | t
  · rfl
  · dsimp only
    rw [h t hl]
    rfl

lemma destroyTarget_alive_flag (s : GameState) (tid : ℕ) :
    ∀ t' ∈ (destroyTarget s tid).targets, t'.id = tid → t'.alive = false := by
  intro t' ht' hid
  rw [destroyTarget_targets] at ht'
  rcases List.mem_map.mp ht' with ⟨t, _, rfl⟩
  by_cases h : t.id = tid
  · simp [h]
  · rw [if_neg h] at hid ⊢
    exact absurd hid h

/-- C1: for a begin-of-contact between a registered projectile and
another body: if the other id resolves to an alive target, the handler
flips that target's alive flag to false and leaves the pending-removal
set untouched (piercing); if it does not resolve to an alive target but
is a known world body, the handler exactly adds the projectile's id to
the pending-removal set; if it resolves to neither, the handler changes
nothing. -/
theorem contact_routing_piercing (s : GameState) (pid otherId : ℕ) :
    (∀ t, lookupTarget s otherId = some t → t.alive = true →
        (handleProjectileContact s pid otherId).projectilesToRemove = s.projectilesToRemove ∧
        ∀ t' ∈ (handleProjectileContact s pid otherId).targets,
          t'.id = otherId → t'.alive = false) ∧
    ((∀ t, lookupTarget s otherId = some t → t.alive = false) → otherId ∈ s.worldBodyIds →
        handleProjectileContact s pid otherId =
          { s with projectilesToRemove := s.projectilesToRemove.insert pid }) ∧
    ((∀ t, lookupTarget s otherId = some t → t.alive = false) → otherId ∉ s.worldBodyIds →
        handleProjectileContact s pid otherId = s) := by
  refine ⟨?_, ?_, ?_⟩
  · intro t hl ha
    rw [handleContact_alive s pid otherId t hl ha]
    exact ⟨destroyTarget_projectilesToRemove s otherId, destroyTarget_alive_flag s otherId⟩
  · intro h hw
    rw [handleContact_notAlive s pid otherId h, if_pos hw]
  · intro h hw
    rw [handleContact_notAlive s pid otherId h, if_neg hw]

/-- Witness for C1 at a concrete state: the projectile (id 7) contacts
the alive target (id 100); the target dies, the removal set is
unchanged. -/
theorem contact_routing_piercing_witness :
    (handleProjectileContact witState 7 100).projectilesToRemove = witState.projectilesToRemove ∧
    ∀ t' ∈ (handleProjectileContact witState 7 100).targets, t'.id = 100 → t'.alive = false :=
  (contact_routing_piercing witState 7 100).1
    { id := 100, meshPos := Vec3.mk 0 1 (-10), bodyPos := Vec3.mk 0 2 (-10), alive := true }
    (by decide) (by decide)

/-- C2 counterexample: `destroyTarget` has no alive guard.  Called on
the already-dead target record (id 5), it credits the score again,
spawns a second floating text, and therefore changes the state. -/
theorem destroy_not_idempotent_cex :
    (deadTargetState.targets.find? (fun t => t.id = 5)).map Target.alive = some false ∧
    (destroyTarget deadTargetState 5).score = deadTargetState.score + SCORE_PER_TARGET ∧
    (destroyTarget deadTargetState 5).floatingTextCount
      = deadTargetState.floatingTextCount + 1 ∧
    destroyTarget deadTargetState 5 ≠ deadTargetState := by
  decide

/-- C2 amended: idempotency of destruction holds one level up, at the
collision router.  `destroyTarget` removes the target's id from the
id-lookup map and leaves its record not-alive, and
`handleProjectileContact` invokes destruction only for an id that
resolves to an alive target, so a contact naming an already-destroyed
target (and not a world body) changes nothing. -/
theorem destroy_idempotent_at_router (s : GameState) (pid otherId : ℕ) :
    ((∀ t, lookupTarget s otherId = some t → t.alive = false) → otherId ∉ s.worldBodyIds →
        handleProjectileContact s pid otherId = s) ∧
    otherId ∉ (destroyTarget s otherId).targetByBodyId ∧
    (∀ t' ∈ (destroyTarget s otherId).targets, t'.id = otherId → t'.alive = false) := by
  refine ⟨?_, ?_, destroyTarget_alive_flag s otherId⟩
  · intro h hw
    rw [handleContact_notAlive s pid otherId h, if_neg hw]
  · rw [destroyTarget_targetByBodyId]
    intro hmem
    have := List.of_mem_filter hmem
    simp at this

/-- Witness for the amended C2 at a concrete state: a second contact
naming the already-destroyed target id 5 is a no-op. -/
theorem destroy_idempotent_at_router_witness :
    handleProjectileContact deadTargetState 7 5 = deadTargetState ∧
    5 ∉ (destroyTarget deadTargetState 5).targetByBodyId := by
  refine ⟨(destroy_idempotent_at_router deadTargetState 7 5).1 ?_ (by decide),
    (destroy_idempotent_at_router deadTargetState 7 5).2.1⟩
  intro t h
  rw [show lookupTarget deadTargetState 5 = none from by decide] at h
  exact Option.noConfusion h

/-- C4: within one session tick taken while playing, the win check runs
before the timer/timeout check, so when the alive-target count is 0 the
tick ends the session with reason `win` (even when the timer also
expires in the same tick); and a tick taken while `Ended` changes
nothing (the session stays ended until an explicit reset). -/
theorem win_precedence (s : GameState) (dt : ℚ) :
    (s.gameState = GState.playing → aliveCount s.targets = 0 →
        (sessionTick s dt).gameState = GState.ended ∧
        endedReason (sessionTick s dt) = some EndReason.win) ∧
    (s.gameState = GState.ended → sessionTick s dt = s) := by
  constructor
  · intro h hc
    unfold sessionTick
    rw [if_pos h, if_pos hc]
    unfold endGame
    rw [h]
    simp only [reduceCtorEq, if_false]
    split <;> simp [endedReason]
  · intro h
    unfold sessionTick
    rw [h]
    simp

/-- Witness for C4 at a concrete state in which the win condition and
the timeout condition both hold in the same tick (no alive target and
no time left): the session ends with reason `win`. -/
theorem win_precedence_witness :
    (sessionTick { witState with targets := [] } 1).gameState = GState.ended ∧
    endedReason (sessionTick { witState with targets := [] } 1) = some EndReason.win :=
  (win_precedence { witState with targets := [] } 1).1 rfl rfl

/-- C10: `endGame` is idempotent — called on an already-ended session it
returns the state unchanged: state, logged end events (hence the first
reason and final score), score, timer and overlay are all untouched. -/
theorem endGame_noop_when_ended (s : GameState) (reason : EndReason)
    (h : s.gameState = GState.ended) : endGame s reason = s := by
  unfold endGame
  rw [if_pos h]

/-- Witness for C10: re-ending an already timed-out session (even with
the other reason) changes nothing. -/
theorem endGame_noop_when_ended_witness :
    endGame endedState EndReason.win = endedState :=
  endGame_noop_when_ended endedState EndReason.win (by decide)

lemma removalRule_isNone_iff (r : List ℕ) (p : Projectile) :
    removalRule r p = none ↔
      ¬ p.age > projectileMaxAgeSec ∧ p.id ∉ r ∧ ¬ p.bodyPos.y < -10 := by
  unfold removalRule
  by_cases h1 : p.age > projectileMaxAgeSec
  · simp [h1]
  · rw [if_neg h1]
    by_cases h2 : p.id ∈ r
    · simp [h1, h2]
    · rw [if_neg h2]
      by_cases h3 : p.bodyPos.y < -10
      · simp [h1, h2, h3]
      · simp [h1, h2, h3]

lemma removalRule_lifetime (r : List ℕ) (p : Projectile)
    (h : p.age > projectileMaxAgeSec) :
    removalRule r p = some RemovalRule.lifetime := by
  unfold removalRule
  rw [if_pos h]

lemma removalRule_contact (r : List ℕ) (p : Projectile)
    (h1 : ¬ p.age > projectileMaxAgeSec) (h2 : p.id ∈ r) :
    removalRule r p = some RemovalRule.contact := by
  unfold removalRule
  rw [if_neg h1, if_pos h2]

lemma removalRule_fallback (r : List ℕ) (p : Projectile)
    (h1 : ¬ p.age > projectileMaxAgeSec) (h2 : p.id ∉ r) (h3 : p.bodyPos.y < -10) :
    removalRule r p = some RemovalRule.fallback := by
  unfold removalRule
  rw [if_neg h1, if_neg h2, if_pos h3]

lemma removalRule_congr (r1 r2 : List ℕ) (p : Projectile) (h : p.id ∈ r1 ↔ p.id ∈ r2) :
    removalRule r1 p = removalRule r2 p := by
  unfold removalRule
  by_cases h1 : p.age > projectileMaxAgeSec
  · rw [if_pos h1, if_pos h1]
  · rw [if_neg h1, if_neg h1]
    by_cases h2 : p.id ∈ r1
    · rw [if_pos h2, if_pos (h.mp h2)]
    · rw [if_neg h2, if_neg (fun hh => h2 (h.mpr hh))]

lemma ageAndSync_id (dt : ℚ) (p : Projectile) : (ageAndSync dt p).id = p.id := rfl

lemma removedIdB_nil (dt : ℚ) (r : List ℕ) (i : ℕ) : removedIdB dt r [] i = false := rfl

lemma removedIdB_cons (dt : ℚ) (r : List ℕ) (p : Projectile) (l : List Projectile) (i : ℕ) :
    removedIdB dt r (p :: l) i =
      ((p.id == i) && (removalRule r (ageAndSync dt p)).isSome || removedIdB dt r l i) := by
  unfold removedIdB
  rw [List.any_cons]

lemma updateProjectilesGo_spec (dt : ℚ) (l : List Projectile) :
    ∀ m r : List ℕ, (l.map (fun p => p.id)).Nodup →
      updateProjectilesGo dt l m r =
        ((l.map (ageAndSync dt)).filter (fun p => (removalRule r p).isNone),
         m.filter (fun i => !(removedIdB dt r l i)),
         r.filter (fun i => !(removedIdB dt r l i))) := by
  induction l with
  | nil =>
    intro m r _
    simp [updateProjectilesGo, removedIdB]
  | cons p rest ih =>
    intro m r hnd
    rw [List.map_cons, List.nodup_cons] at hnd
    obtain ⟨hpid, hnd'⟩ := hnd
    have hrem : removedIdB dt r rest p.id = false := by
      unfold removedIdB
      rw [List.any_eq_false]
      intro q hq
      have : ¬ q.id = p.id := by
        intro he
        exact hpid (he ▸ List.mem_map_of_mem (fun x => x.id) hq)
      simp [ageAndSync, this]
    have hmem : p.id ∈ r.filter (fun i => !(removedIdB dt r rest i)) ↔ p.id ∈ r := by
      constructor
      · exact fun h => (List.mem_filter.mp h).1
      · intro h
        exact List.mem_filter.mpr ⟨h, by rw [hrem]; rfl⟩
    have hrule : removalRule (r.filter (fun i => !(removedIdB dt r rest i))) (ageAndSync dt p)
        = removalRule r (ageAndSync dt p) := by
      apply removalRule_congr
      rw [ageAndSync_id]
      exact hmem
    unfold updateProjectilesGo
    rw [ih m r hnd']
    dsimp only
    rw [hrule]
    rcases hcase : removalRule r (ageAndSync dt p) with _ | rule
    · rw [if_neg (by simp)]
      have hfilters : (fun i : ℕ => !(removedIdB dt r (p :: rest) i))
          = (fun i : ℕ => !(removedIdB dt r rest i)) := by
        funext i
        rw [removedIdB_cons, hcase]
        simp
      rw [List.map_cons, List.filter_cons_of_pos (by rw [hcase]; rfl)]
      rw [hfilters]
    · rw [if_pos (by simp)]
      have hfilters : (fun i : ℕ => decide (i ≠ (ageAndSync dt p).id) && !(removedIdB dt r rest i))
          = (fun i : ℕ => !(removedIdB dt r (p :: rest) i)) := by
        funext i
        rw [removedIdB_cons, hcase, ageAndSync_id]
        by_cases hi : i = p.id
        · simp [hi]
        · have hpi : ¬ p.id = i := fun he => hi he.symm
          simp [hi, hpi]
      rw [List.map_cons, List.filter_cons_of_neg (by rw [hcase]; simp)]
      rw [List.filter_filter, List.filter_filter, hfilters]

/-- C3: one lifecycle update pass with delta `dt` ages every active
projectile by `dt` and keeps exactly those whose aged record matches no
removal trigger; the trigger chain checks, in order and
short-circuiting, (1) age beyond the maximum lifetime, (2) membership in
the pending-removal set, (3) vertical position below the lower safety
bound, and a projectile is removed iff at least one trigger holds. -/
theorem lifecycle_update_characterization (s : GameState) (dt : ℚ)
    (hnd : (s.projectiles.map (fun p => p.id)).Nodup) :
    (updateProjectiles s dt).projectiles =
      (s.projectiles.map (ageAndSync dt)).filter
        (fun p => (removalRule s.projectilesToRemove p).isNone) ∧
    (∀ (r : List ℕ) (p : Projectile),
      removalRule r p = none ↔
        ¬ p.age > projectileMaxAgeSec ∧ p.id ∉ r ∧ ¬ p.bodyPos.y < -10) ∧
    (∀ (r : List ℕ) (p : Projectile), p.age > projectileMaxAgeSec →
      removalRule r p = some RemovalRule.lifetime) ∧
    (∀ (r : List ℕ) (p : Projectile), ¬ p.age > projectileMaxAgeSec → p.id ∈ r →
      removalRule r p = some RemovalRule.contact) ∧
    (∀ (r : List ℕ) (p : Projectile), ¬ p.age > projectileMaxAgeSec → p.id ∉ r →
      p.bodyPos.y < -10 → removalRule r p = some RemovalRule.fallback) := by
  refine ⟨?_, removalRule_isNone_iff, removalRule_lifetime, removalRule_contact,
    removalRule_fallback⟩
  unfold updateProjectiles
  rw [updateProjectilesGo_spec dt s.projectiles s.projectileByBodyId s.projectilesToRemove hnd]

/-- Witness for C3 at a concrete state (one projectile of age 1, empty
pending-removal set, update with dt = 1). -/
theorem lifecycle_update_characterization_witness :
    (updateProjectiles witState 1).projectiles =
      (witState.projectiles.map (ageAndSync 1)).filter
        (fun p => (removalRule witState.projectilesToRemove p).isNone) ∧
    (∀ (r : List ℕ) (p : Projectile),
      removalRule r p = none ↔
        ¬ p.age > projectileMaxAgeSec ∧ p.id ∉ r ∧ ¬ p.bodyPos.y < -10) ∧
    (∀ (r : List ℕ) (p : Projectile), p.age > projectileMaxAgeSec →
      removalRule r p = some RemovalRule.lifetime) ∧
    (∀ (r : List ℕ) (p : Projectile), ¬ p.age > projectileMaxAgeSec → p.id ∈ r →
      removalRule r p = some RemovalRule.contact) ∧
    (∀ (r : List ℕ) (p : Projectile), ¬ p.age > projectileMaxAgeSec → p.id ∉ r →
      p.bodyPos.y < -10 → removalRule r p = some RemovalRule.fallback) :=
  lifecycle_update_characterization witState 1 (by decide)

/-- C9: `resetGame` — from any state (in particular an ended one) —
restores a playing session with score 0, a full timer, no active
projectiles, and as many alive targets as there are placement
descriptors (all nine respawned). -/
theorem reset_restores_session (s : GameState) :
    (resetGame s).gameState = GState.playing ∧
    (resetGame s).score = 0 ∧
    (resetGame s).timeRemainingSec = TIME_LIMIT_SEC ∧
    (resetGame s).projectiles = [] ∧
    (targetPlacements s).length = 9 ∧
    aliveCount (resetGame s).targets = (targetPlacements s).length := by
  refine ⟨rfl, rfl, rfl, rfl, rfl, ?_⟩
  show aliveCount (createTargets { removeAllProjectiles s with
    targets := [], targetByBodyId := [] }).targets = _
  unfold createTargets aliveCount
  simp [List.countP_map]
  rfl

lemma aliveCount_resetGame (s : GameState) : aliveCount (resetGame s).targets = 9 := by
  show aliveCount (createTargets { removeAllProjectiles s with
    targets := [], targetByBodyId := [] }).targets = 9
  unfold createTargets aliveCount
  simp [List.countP_map]
  rfl

lemma frameInv_endGame_playing (s : GameState) (r : EndReason)
    (hplay : s.gameState = GState.playing)
    (hA : ∀ i ∈ s.projectileByBodyId, ∃ p ∈ s.projectiles, p.id = i)
    (hB : ∀ p ∈ s.projectiles, p.id ∈ s.projectileByBodyId)
    (hC : (s.projectiles.map (fun p => p.id)).Nodup)
    (hD : ∀ p ∈ s.projectiles, p.id < s.nextBodyId) :
    FrameInv (endGame s r) := by
  unfold endGame
  rw [if_neg (by rw [hplay]; decide)]
  exact ⟨hA, hB, hC, hD, le_refl 0, le_refl 0, fun hp => GState.noConfusion hp⟩

lemma frameInv_destroyTarget (s : GameState) (tid : ℕ) (h : FrameInv s) :
    FrameInv (destroyTarget s tid) := by
  obtain ⟨hA, hB, hC, hD, hE, hF, hG⟩ := h
  unfold destroyTarget
  dsimp only
  split
  · next hcond => exact frameInv_endGame_playing _ _ hcond.1 hA hB hC hD
  · next hcond =>
    exact ⟨hA, hB, hC, hD, hE, hF,
      fun hp => Nat.pos_of_ne_zero (fun h0 => hcond ⟨hp, h0⟩)⟩

lemma frameInv_handleContact (s : GameState) (pid otherId : ℕ) (h : FrameInv s) :
    FrameInv (handleProjectileContact s pid otherId) := by
  unfold handleProjectileContact
  split
  · exact frameInv_destroyTarget s otherId h
  · split
    · exact h
    · exact h

lemma frameInv_fireProjectile (s : GameState) (h : FrameInv s) :
    FrameInv (fireProjectile s) := by
  obtain ⟨hA, hB, hC, hD, hE, hF, hG⟩ := h
  unfold fireProjectile
  split
  · exact ⟨hA, hB, hC, hD, hE, hF, hG⟩
  · next hplay =>
    dsimp only
    refine ⟨?_, ?_, ?_, ?_, hE, hF, hG⟩
    · intro i hi
      rcases List.mem_insert_iff.mp hi with rfl | hi'
      · exact ⟨_, List.mem_append_right _ (List.mem_singleton.mpr rfl), rfl⟩
      · rcases hA i hi' with ⟨p, hp, hpe⟩
        exact ⟨p, List.mem_append_left _ hp, hpe⟩
    · intro p hp
      rcases List.mem_append.mp hp with hp' | hp'
      · exact List.mem_insert_iff.mpr (Or.inr (hB p hp'))
      · rw [List.mem_singleton.mp hp']
        exact List.mem_insert_iff.mpr (Or.inl rfl)
    · rw [List.map_append]
      rw [List.nodup_append]
      refine ⟨hC, List.nodup_singleton _, ?_⟩
      intro i hi hi'
      rcases List.mem_map.mp hi with ⟨p, hp, hpe⟩
      have : i = s.nextBodyId := by
        simpa using hi'
      exact absurd (hpe ▸ this ▸ hD p hp) (lt_irrefl _)
    · intro p hp
      rcases List.mem_append.mp hp with hp' | hp'
      · exact Nat.lt_succ_of_lt (hD p hp')
      · rw [List.mem_singleton.mp hp']
        exact Nat.lt_succ_self _

lemma removedIdB_eq_false_iff (dt : ℚ) (r : List ℕ) (l : List Projectile) (i : ℕ) :
    removedIdB dt r l i = false ↔
      ∀ p ∈ l, p.id = i → (removalRule r (ageAndSync dt p)).isSome = false := by
  unfold removedIdB
  rw [List.any_eq_false]
  constructor
  · intro h p hp hpe
    have := h p hp
    simpa [hpe] using this
  · intro h p hp
    by_cases hpe : p.id = i
    · simp [hpe, h p hp hpe]
    · simp [hpe]

lemma frameInv_updateProjectiles (s : GameState) (dt : ℚ) (h : FrameInv s) :
    FrameInv (updateProjectiles s dt) := by
  obtain ⟨hA, hB, hC, hD, hE, hF, hG⟩ := h
  unfold updateProjectiles
  rw [updateProjectilesGo_spec dt s.projectiles s.projectileByBodyId s.projectilesToRemove hC]
  dsimp only
  refine ⟨?_, ?_, ?_, ?_, hE, hF, hG⟩
  · intro i hi
    obtain ⟨him, hkeep⟩ := List.mem_filter.mp hi
    rcases hA i him with ⟨p, hp, hpe⟩
    have hfalse : removedIdB dt s.projectilesToRemove s.projectiles i = false := by
      simpa using hkeep
    have hrule := (removedIdB_eq_false_iff dt _ _ i).mp hfalse p hp hpe
    refine ⟨ageAndSync dt p, List.mem_filter.mpr ⟨List.mem_map_of_mem _ hp, ?_⟩, hpe⟩
    rcases hopt : removalRule s.projectilesToRemove (ageAndSync dt p) with _ | v
    · rfl
    · rw [hopt] at hrule
      exact absurd hrule (by simp)
  · intro q hq
    obtain ⟨hqm, hqkeep⟩ := List.mem_filter.mp hq
    rcases List.mem_map.mp hqm with ⟨p, hp, rfl⟩
    refine List.mem_filter.mpr ⟨by rw [ageAndSync_id]; exact hB p hp, ?_⟩
    have : removedIdB dt s.projectilesToRemove s.projectiles (ageAndSync dt p).id = false := by
      refine (removedIdB_eq_false_iff dt _ _ _).mpr ?_
      intro p' hp' hpe'
      have hpp : p' = p :=
        List.inj_on_of_nodup_map hC hp' hp (by rw [hpe', ageAndSync_id])
      subst hpp
      rcases hopt : removalRule s.projectilesToRemove (ageAndSync dt p') with _ | v
      · rfl
      · rw [hopt] at hqkeep
        exact absurd hqkeep (by simp)
    simp [this]
  · have hsub : List.Sublist
        (((List.map (ageAndSync dt) s.projectiles).filter
          (fun p => (removalRule s.projectilesToRemove p).isNone)).map (fun p => p.id))
        ((List.map (ageAndSync dt) s.projectiles).map (fun p => p.id)) :=
      List.Sublist.map _ (List.filter_sublist _)
    have heq : (List.map (ageAndSync dt) s.projectiles).map (fun p => p.id)
        = s.projectiles.map (fun p => p.id) := by
      rw [List.map_map]
      rfl
    exact List.Nodup.sublist (heq ▸ hsub) hC
  · intro q hq
    obtain ⟨hqm, _⟩ := List.mem_filter.mp hq
    rcases List.mem_map.mp hqm with ⟨p, hp, rfl⟩
    rw [ageAndSync_id]
    exact hD p hp

lemma frameInv_sessionTick (s : GameState) (dt : ℚ) (h : FrameInv s) :
    FrameInv (sessionTick s dt) := by
  obtain ⟨hA, hB, hC, hD, hE, hF, hG⟩ := h
  unfold sessionTick
  split
  · next hplay =>
    rw [if_neg (Nat.pos_iff_ne_zero.mp (hG hplay))]
    dsimp only
    split
    · next hle =>
      exact frameInv_endGame_playing _ _ hplay hA hB hC hD
    · next hnle =>
      have hpos : (0 : ℚ) ≤ s.timeRemainingSec - dt := le_of_lt (lt_of_not_le hnle)
      exact ⟨hA, hB, hC, hD, hpos, hpos, fun hp => hG hp⟩
  · exact ⟨hA, hB, hC, hD, hE, hF, hG⟩

lemma frameInv_resetGame (s : GameState) (h : FrameInv s) :
    FrameInv (resetGame s) := by
  refine ⟨?_, ?_, ?_, ?_, (by norm_num : (0:ℚ) ≤ 60), (by norm_num : (0:ℚ) ≤ 60),
    fun hp => ?_⟩
  · intro i hi
    have hi' : i ∈ s.projectileByBodyId.filter
        (fun j => decide (j ∉ s.projectiles.map (fun p => p.id))) := hi
    obtain ⟨him, hnot⟩ := List.mem_filter.mp hi'
    rcases h.1 i him with ⟨p, hp, hpe⟩
    have : i ∈ s.projectiles.map (fun p => p.id) := hpe ▸ List.mem_map_of_mem _ hp
    exact absurd this (by simpa using hnot)
  · intro p hp
    exact absurd hp (List.not_mem_nil p)
  · exact List.nodup_nil
  · intro p hp
    exact absurd hp (List.not_mem_nil p)
  · rw [aliveCount_resetGame]
    norm_num

lemma frameInv_moveBodies (s : GameState) (f : ℕ → Vec3) (h : FrameInv s) :
    FrameInv (moveBodies s f) := by
  obtain ⟨hA, hB, hC, hD, hE, hF, hG⟩ := h
  have hids : (s.projectiles.map (fun p => { p with bodyPos := f p.id })).map (fun p => p.id)
      = s.projectiles.map (fun p => p.id) := by
    rw [List.map_map]
    rfl
  refine ⟨?_, ?_, ?_, ?_, hE, hF, hG⟩
  · intro i hi
    rcases hA i hi with ⟨p, hp, hpe⟩
    exact ⟨{ p with bodyPos := f p.id }, List.mem_map_of_mem _ hp, hpe⟩
  · intro q hq
    rcases List.mem_map.mp hq with ⟨p, hp, rfl⟩
    exact hB p hp
  · rw [show (moveBodies s f).projectiles
        = s.projectiles.map (fun p => { p with bodyPos := f p.id }) from rfl, hids]
    exact hC
  · intro q hq
    rcases List.mem_map.mp hq with ⟨p, hp, rfl⟩
    exact hD p hp

lemma frameInv_initialState (aim : Vec3) : FrameInv (initialState aim) := by
  refine ⟨?_, ?_, List.nodup_nil, ?_, (by norm_num : (0:ℚ) ≤ 60),
    (by norm_num : (0:ℚ) ≤ 60), fun _ => ?_⟩
  · intro i hi
    exact absurd hi (List.not_mem_nil i)
  · intro p hp
    exact absurd hp (List.not_mem_nil p)
  · intro p hp
    exact absurd hp (List.not_mem_nil p)
  · exact (by norm_num : (0:ℕ) < 9)

lemma reachable_frameInv (s : GameState) (h : Reachable s) : FrameInv s := by
  induction h with
  | init aim => exact frameInv_initialState aim
  | step hr hstep ih =>
    cases hstep with
    | fire => exact frameInv_fireProjectile _ ih
    | contact pid otherId => exact frameInv_handleContact _ pid otherId ih
    | update dt hdt => exact frameInv_updateProjectiles _ dt ih
    | tick dt h0 h1 => exact frameInv_sessionTick _ dt ih
    | reset => exact frameInv_resetGame _ ih
    | aim d => exact ih
    | physics f => exact frameInv_moveBodies _ f ih
    | trajectory sq => exact ih

/-- C8: handle consistency — at every reachable state (any interleaving
of spawn, contact handling, lifecycle update, tick, reset, aim, physics
motion and trajectory recompute from the initial state), a projectile
body id has a record in the active array iff it is a key of the
id-lookup map. -/
theorem projectile_handle_consistency (s : GameState) (hr : Reachable s) :
    ∀ id : ℕ, (∃ p ∈ s.projectiles, p.id = id) ↔ id ∈ s.projectileByBodyId := by
  obtain ⟨hA, hB, _, _, _, _, _⟩ := reachable_frameInv s hr
  intro id
  constructor
  · rintro ⟨p, hp, rfl⟩
    exact hB p hp
  · intro hm
    exact hA id hm

/-- Witness for C8 at the initial state. -/
theorem projectile_handle_consistency_witness :
    (∃ p ∈ (initialState (Vec3.mk 0 0 (-1))).projectiles, p.id = 7) ↔
      7 ∈ (initialState (Vec3.mk 0 0 (-1))).projectileByBodyId :=
  projectile_handle_consistency (initialState (Vec3.mk 0 0 (-1)))
    (Reachable.init (Vec3.mk 0 0 (-1))) 7

/-- C5: the frame invariant (which includes `0 ≤ timeRemainingSec` and
"playing implies an alive target exists", the fact that makes the
loop-level win check unreachable) holds at every reachable state; and
under that invariant, a tick taken while playing with `0 ≤ dt` keeps the
remaining time non-negative and non-increasing, keeps the displayed
value non-negative, and — if the decrement drives the time to `≤ 0` —
ends the session with reason `timeout` and time clamped to exactly 0 in
that same tick. -/
theorem timer_monotone_clamped :
    (∀ s, Reachable s → FrameInv s) ∧
    (∀ (s : GameState) (dt : ℚ), FrameInv s → s.gameState = GState.playing → 0 ≤ dt →
      TickTimeOK s dt) := by
  constructor
  · exact reachable_frameInv
  · intro s dt h hplay hdt
    obtain ⟨_, _, _, _, hE, _, hG⟩ := h
    unfold TickTimeOK sessionTick endedReason
    rw [if_pos hplay, if_neg (Nat.pos_iff_ne_zero.mp (hG hplay))]
    dsimp only
    split
    · next hle =>
      unfold endGame
      rw [if_neg (by simp [hplay])]
      refine ⟨le_refl 0, hE, le_refl 0, fun _ => ⟨rfl, ?_, rfl⟩⟩
      simp
    · next hnle =>
      have hpos : (0 : ℚ) < s.timeRemainingSec - dt := lt_of_not_le hnle
      refine ⟨le_of_lt hpos, ?_, le_of_lt hpos, fun hcontra => absurd hcontra hnle⟩
      show s.timeRemainingSec - dt ≤ s.timeRemainingSec
      linarith

/-- Witness for C5: the invariant holds at the initial state, and a tick
from a concrete invariant-satisfying playing state with no time left
ends the session by timeout with the time clamped to 0. -/
theorem timer_monotone_clamped_witness :
    FrameInv (initialState (Vec3.mk 0 0 (-1))) ∧ TickTimeOK witState 1 :=
  ⟨timer_monotone_clamped.1 (initialState (Vec3.mk 0 0 (-1)))
      (Reachable.init (Vec3.mk 0 0 (-1))),
   timer_monotone_clamped.2 witState 1 (by decide) rfl (by decide)⟩

lemma trajStep_eq (sq : ℚ → ℚ) (v0 g : Vec3) (seg t : ℚ) :
    trajStep sq v0 g seg t =
      clampNumber (seg / max (vlen sq (v0 + Vec3.scale t g)) (1/1000)) (1/100) (12/100) := by
  unfold trajStep
  rw [max_comm]

lemma trajGo_eq_spec (sq : ℚ → ℚ) (p0 v0 g : Vec3) (seg maxT groundY : ℚ) :
    ∀ (fuel : ℕ) (t : ℚ),
      trajGo sq p0 v0 g seg maxT groundY fuel t =
        (trajTimesSpec sq p0 v0 g seg maxT groundY fuel t).map (posAt p0 v0 g) := by
  intro fuel
  induction fuel with
  | zero => intro t; rfl
  | succ n ih =>
    intro t
    unfold trajGo trajTimesSpec
    split
    · rw [trajStep_eq]
      dsimp only
      split
      · rfl
      · rw [ih]
        rfl
    · rfl

lemma trajGo_length_le (sq : ℚ → ℚ) (p0 v0 g : Vec3) (seg maxT groundY : ℚ) :
    ∀ (fuel : ℕ) (t : ℚ), (trajGo sq p0 v0 g seg maxT groundY fuel t).length ≤ fuel := by
  intro fuel
  induction fuel with
  | zero => intro t; exact le_refl 0
  | succ n ih =>
    intro t
    unfold trajGo
    split
    · dsimp only
      split
      · exact Nat.succ_le_succ (Nat.zero_le n)
      · exact Nat.succ_le_succ (ih _)
    · exact Nat.zero_le _

lemma trajGo_allButLast (sq : ℚ → ℚ) (p0 v0 g : Vec3) (seg maxT groundY : ℚ) :
    ∀ (fuel : ℕ) (t : ℚ),
      allButLast (fun q => groundY < q.y) (trajGo sq p0 v0 g seg maxT groundY fuel t) := by
  intro fuel
  induction fuel with
  | zero => intro t; exact trivial
  | succ n ih =>
    intro t
    unfold trajGo
    split
    · dsimp only
      split
      · exact trivial
      · next hy =>
        rcases hrec : trajGo sq p0 v0 g seg maxT groundY n
            (t + trajStep sq v0 g seg t) with _ | ⟨q, rest⟩
        · exact trivial
        · exact ⟨lt_of_not_le hy, hrec ▸ ih _⟩
    · exact trivial

/-- C6: the trajectory predictor's output is exactly the origin followed
by the closed-form positions `P(t) = P0 + V0·t + ½·g·t²` sampled at the
spec's adaptive time sequence (each increment
`clamp(segmentLength / max(|V0 + g·t|, ε), minDt, maxDt)` from `t = 0`,
stopping at the ground threshold, the point budget, or the time limit);
it never exceeds `maxPoints` samples; and only its very last sample can
lie at or below the ground threshold. -/
theorem trajectory_points_spec (sq : ℚ → ℚ) (p0 v0 g : Vec3)
    (cfg : TrajectoryConfig) (groundY : ℚ) :
    updateTrajectoryPoints sq p0 v0 g cfg groundY =
      p0 :: (trajTimesSpec sq p0 v0 g (max (1/20) cfg.segmentLength)
          (max (1/20) cfg.maxTimeSec) groundY (max 4 cfg.maxPoints - 1) 0).map
        (posAt p0 v0 g) ∧
    (updateTrajectoryPoints sq p0 v0 g cfg groundY).length ≤ max 4 cfg.maxPoints ∧
    allButLast (fun q => groundY < q.y)
      (updateTrajectoryPoints sq p0 v0 g cfg groundY).tail := by
  refine ⟨?_, ?_, ?_⟩
  · unfold updateTrajectoryPoints
    dsimp only
    rw [trajGo_eq_spec]
  · have hlen := trajGo_length_le sq p0 v0 g (max (1/20) cfg.segmentLength)
      (max (1/20) cfg.maxTimeSec) groundY (max 4 cfg.maxPoints - 1) 0
    have hge : 4 ≤ max 4 cfg.maxPoints := le_max_left _ _
    show (trajGo sq p0 v0 g (max (1/20) cfg.segmentLength) (max (1/20) cfg.maxTimeSec)
        groundY (max 4 cfg.maxPoints - 1) 0).length + 1 ≤ max 4 cfg.maxPoints
    omega
  · exact trajGo_allButLast sq p0 v0 g (max (1/20) cfg.segmentLength)
      (max (1/20) cfg.maxTimeSec) groundY (max 4 cfg.maxPoints - 1) 0

/-- C7: the trajectory recomputation is deterministic and stateless —
it is a function of the spawn origin, aim direction, configured speed,
gravity and trajectory configuration only (two states agreeing on those
agree on the output, whatever their other fields); rerunning it right
after a previous run yields the identical sequence; and the operation
writes nothing but the preview line. -/
theorem trajectory_deterministic :
    (∀ (sq : ℚ → ℚ) (s1 s2 : GameState),
      s1.playerPos = s2.playerPos → s1.aimDir = s2.aimDir →
      s1.projectileSpeed = s2.projectileSpeed → s1.gravity = s2.gravity →
      s1.trajMaxTimeSec = s2.trajMaxTimeSec →
      s1.trajSegmentLength = s2.trajSegmentLength →
      s1.trajMaxPoints = s2.trajMaxPoints →
      computeTrajectory sq s1 = computeTrajectory sq s2) ∧
    (∀ (sq : ℚ → ℚ) (s : GameState),
      computeTrajectory sq (updateTrajectoryLine sq s) = computeTrajectory sq s) ∧
    (∀ (sq : ℚ → ℚ) (s : GameState),
      (updateTrajectoryLine sq s).projectiles = s.projectiles ∧
      (updateTrajectoryLine sq s).targets = s.targets ∧
      (updateTrajectoryLine sq s).gameState = s.gameState ∧
      (updateTrajectoryLine sq s).score = s.score ∧
      (updateTrajectoryLine sq s).timeRemainingSec = s.timeRemainingSec) := by
  refine ⟨?_, ?_, ?_⟩
  · intro sq s1 s2 h1 h2 h3 h4 h5 h6 h7
    unfold computeTrajectory
    rw [h1, h2, h3, h4, h5, h6, h7]
  · intro sq s
    rfl
  · intro sq s
    exact ⟨rfl, rfl, rfl, rfl, rfl⟩

/-- Witness for C7: two concrete states differing in score, timer and
projectiles (but agreeing on the predictor inputs) yield the identical
point sequence. -/
theorem trajectory_deterministic_witness :
    computeTrajectory (fun q => q) witState =
      computeTrajectory (fun q => q)
        { witState with score := 999, timeRemainingSec := 42, projectiles := [] } :=
  trajectory_deterministic.1 (fun q => q) witState
    { witState with score := 999, timeRemainingSec := 42, projectiles := [] }
    rfl rfl rfl rfl rfl rfl rfl
